import Mathlib

/-!
Verification of the MongoDB command-relay plugin
(`src/src-tauri/src/mongodbApi.rs`).

The file shallowly embeds the seven Tauri command handlers
(`connectDBServer`, `accessDB`, `find`, `findOne`, `insertOne`,
`insertMany`, `aggregate`).  The external MongoDB driver and `serde_json`
are modelled as an oracle structure `Driver` whose fields stand for the
driver methods the handlers invoke; each handler is a pure function of the
oracle and its arguments, returning its outcome together with the list of
driver calls it performed, so that "performs no driver call" and "panics"
become provable statements.
-/

namespace Mongo

/-- `serde_json::Value` / BSON documents, modelled as a JSON tree. -/
inductive Json where
  | null
  | bool (b : Bool)
  | num (n : Int)
  | str (s : String)
  | arr (elems : List Json)
  | obj (fields : List (String × Json))

/-- `mongodb::Client` as produced by `Client::with_uri_str`: a handle
holding the parsed connection target.  The driver constructs it lazily,
without contacting the server. -/
structure Client where
  uri : String
deriving DecidableEq, Repr

/-- `mongodb::Database`: the handle returned by `client.database(name)`
and passed back into every later command. -/
structure Database where
  client : Client
  name : String
deriving DecidableEq, Repr

/-- `Client::database` — pure selection of a named database. -/
def Client.database (c : Client) (name : String) : Database :=
  ⟨c, name⟩

/-- `mongodb::Collection`: the handle returned by `db.collection(name)`. -/
structure Collection where
  db : Database
  name : String
deriving DecidableEq, Repr

/-- `Database::collection` — pure selection of a named collection. -/
def Database.collection (db : Database) (name : String) : Collection :=
  ⟨db, name⟩

/-- A driver cursor, opaque to the relay. -/
structure Cursor where
  id : Nat
deriving DecidableEq, Repr

/-- `mongodb::results::InsertOneResult`. -/
structure InsertOneResult where
  inserted_id : Json

/-- `mongodb::results::InsertManyResult`. -/
structure InsertManyResult where
  inserted_ids : List Json

/-- Oracle for the external driver and serde calls the handlers make.
Each field models one external function, with `Except String` for the
Rust `Result<_, E>` (the error already rendered by `{}`-formatting):

* `from_str` — `serde_json::from_str::<Document>`;
* `from_str_vec` — `serde_json::from_str::<Vec<Document>>` (used for the
  `insertMany` data array and the `aggregate` pipeline);
* `with_uri_str` — `Client::with_uri_str`: it only parses the URI and
  builds a lazy client, so it is a function of the string alone;
* `find`, `find_one`, `insert_one`, `insert_many`, `aggregate` — the
  driver query methods (their outcome encodes server state and
  reachability);
* `into_vec` — draining a cursor into a `Vec<Document>`;
* `to_value` — `serde_json::to_value` on a single `Document` (its use on
  a `Vec` or `Option` is derived below, following serde semantics). -/
structure Driver where
  from_str : String → Except String Json
  from_str_vec : String → Except String (List Json)
  with_uri_str : String → Except String Client
  find : Collection → Json → Except String Cursor
  find_one : Collection → Json → Except String (Option Json)
  insert_one : Collection → Json → Except String InsertOneResult
  insert_many : Collection → List Json → Except String InsertManyResult
  aggregate : Collection → List Json → Except String Cursor
  into_vec : Cursor → Except String (List Json)
  to_value : Json → Except String Json

/-- `serde_json::to_value` on a `Vec<Document>`: serialize the elements in
order into a JSON array, failing as soon as an element fails. -/
def to_value_vec (f : Json → Except String Json) : List Json → Except String (List Json)
  | [] => .ok []
  | d :: ds =>
    match f d with
    | .error e => .error e
    | .ok v =>
      match to_value_vec f ds with
      | .error e => .error e
      | .ok vs => .ok (v :: vs)

/-- `serde_json::to_value` on an `Option<Document>`: `None` serializes to
JSON `null`, `Some d` serializes `d`. -/
def to_value_opt (f : Json → Except String Json) : Option Json → Except String Json
  | none => .ok Json.null
  | some d => f d

/-- Outcome of one command invocation: `Ok(v)`, `Err(string)`, or a panic
(the `.unwrap()` on a failed `serde_json::to_value`). -/
inductive Outcome (α : Type) where
  | ok (v : α)
  | err (e : String)
  | panicked (msg : String)

/-- One invocation of a driver method that can reach the server. -/
inductive DriverCall where
  | findC (c : Collection) (q : Json)
  | findOneC (c : Collection) (q : Json)
  | insertOneC (c : Collection) (d : Json)
  | insertManyC (c : Collection) (ds : List Json)
  | aggregateC (c : Collection) (p : List Json)
  | intoVecC (cur : Cursor)

/-- `DBInfo` argument struct of `connectDBServer`. -/
structure DBInfo where
  server : String
  database : String
deriving DecidableEq, Repr

/-- `FindArgs` argument struct of `find` and `findOne`. -/
structure FindArgs where
  collection : String
  query : String
deriving DecidableEq, Repr

/-- `InsertOneArgs` argument struct of `insertOne`. -/
structure InsertOneArgs where
  collection : String
  data : String
deriving DecidableEq, Repr

/-- `InsertManyArgs` argument struct of `insertMany`. -/
structure InsertManyArgs where
  collection : String
  data : String
deriving DecidableEq, Repr

/-- `AggregateArgs` argument struct of `aggregate`. -/
structure AggregateArgs where
  collection : String
  pipeline : String
deriving DecidableEq, Repr

/-- The `connectDBServer` handler (mongodbApi.rs lines 47-56). -/
def connectDBServer (d : Driver) (payload : DBInfo) :
    Outcome Database × List DriverCall :=
  match d.with_uri_str payload.server with
  | .error e => (.err ("Failed to connect: " ++ e), [])
  | .ok client => (.ok (client.database payload.database), [])

/-- The `accessDB` handler (mongodbApi.rs lines 58-60): `Ok(db)`. -/
def accessDB (db : Database) : Outcome Database × List DriverCall :=
  (.ok db, [])

/-- The `find` handler (mongodbApi.rs lines 62-77). -/
def find (d : Driver) (db : Database) (args : FindArgs) :
    Outcome Json × List DriverCall :=
  let coll := db.collection args.collection
  match d.from_str args.query with
  | .error e => (.err ("Failed to parse query: " ++ e), [])
  | .ok query =>
    match d.find coll query with
    | .error e => (.err ("Failed to execute query: " ++ e), [.findC coll query])
    | .ok cursor =>
      match d.into_vec cursor with
      | .error e =>
        (.err ("Failed to read results: " ++ e), [.findC coll query, .intoVecC cursor])
      | .ok results =>
        match to_value_vec d.to_value results with
        | .error e => (.panicked e, [.findC coll query, .intoVecC cursor])
        | .ok vs => (.ok (Json.arr vs), [.findC coll query, .intoVecC cursor])

/-- The `findOne` handler (mongodbApi.rs lines 79-90). -/
def findOne (d : Driver) (db : Database) (args : FindArgs) :
    Outcome Json × List DriverCall :=
  let coll := db.collection args.collection
  match d.from_str args.query with
  | .error e => (.err ("Failed to parse query: " ++ e), [])
  | .ok query =>
    match d.find_one coll query with
    | .error e => (.err ("Failed to execute query: " ++ e), [.findOneC coll query])
    | .ok result =>
      match to_value_opt d.to_value result with
      | .error e => (.panicked e, [.findOneC coll query])
      | .ok v => (.ok v, [.findOneC coll query])

/-- The `insertOne` handler (mongodbApi.rs lines 92-102).
`serde_json::to_value("success").unwrap()` cannot fail on a string
literal, so the success payload is `Json.str "success"` directly. -/
def insertOne (d : Driver) (db : Database) (args : InsertOneArgs) :
    Outcome Json × List DriverCall :=
  let coll := db.collection args.collection
  match d.from_str args.data with
  | .error e => (.err ("Failed to parse document: " ++ e), [])
  | .ok doc =>
    match d.insert_one coll doc with
    | .ok _ => (.ok (Json.str "success"), [.insertOneC coll doc])
    | .error e => (.err ("Failed to insert document: " ++ e), [.insertOneC coll doc])

/-- The `insertMany` handler (mongodbApi.rs lines 104-114). -/
def insertMany (d : Driver) (db : Database) (args : InsertManyArgs) :
    Outcome Json × List DriverCall :=
  let coll := db.collection args.collection
  match d.from_str_vec args.data with
  | .error e => (.err ("Failed to parse documents: " ++ e), [])
  | .ok docs =>
    match d.insert_many coll docs with
    | .ok _ => (.ok (Json.str "success"), [.insertManyC coll docs])
    | .error e => (.err ("Failed to insert documents: " ++ e), [.insertManyC coll docs])

/-- The `aggregate` handler (mongodbApi.rs lines 116-131). -/
def aggregate (d : Driver) (db : Database) (args : AggregateArgs) :
    Outcome Json × List DriverCall :=
  let coll := db.collection args.collection
  match d.from_str_vec args.pipeline with
  | .error e => (.err ("Failed to parse pipeline: " ++ e), [])
  | .ok pipeline =>
    match d.aggregate coll pipeline with
    | .error e =>
      (.err ("Failed to execute aggregation: " ++ e), [.aggregateC coll pipeline])
    | .ok cursor =>
      match d.into_vec cursor with
      | .error e =>
        (.err ("Failed to read aggregation results: " ++ e),
          [.aggregateC coll pipeline, .intoVecC cursor])
      | .ok results =>
        match to_value_vec d.to_value results with
        | .error e => (.panicked e, [.aggregateC coll pipeline, .intoVecC cursor])
        | .ok vs => (.ok (Json.arr vs), [.aggregateC coll pipeline, .intoVecC cursor])

end Mongo

namespace Mongo

/-- A concrete driver for test scenarios: parsing succeeds exactly on the
strings used as demo inputs, every server operation succeeds, and document
serialization is the identity. -/
def demoDriver : Driver where
  from_str s :=
    if s = "\x7b\x7d" then .ok (Json.obj [])
    else .error "key must be a string at line 1 column 2"
  from_str_vec s :=
    if s = "[]" then .ok []
    else .error "expected value at line 1 column 1"
  with_uri_str s :=
    if s = "not a uri" then .error "An invalid argument was provided"
    else .ok ⟨s⟩
  find _ _ := .ok ⟨0⟩
  find_one _ _ := .ok none
  insert_one _ _ := .ok ⟨Json.str "id0"⟩
  insert_many _ _ := .ok ⟨[]⟩
  aggregate _ _ := .ok ⟨1⟩
  into_vec _ := .ok []
  to_value d := .ok d

/-- The demo driver pointed at an unreachable server: every operation that
needs the network fails, while URI parsing behaves as in `demoDriver`. -/
def unreachableDriver : Driver :=
  { demoDriver with
    find := fun _ _ => .error "server unreachable"
    find_one := fun _ _ => .error "server unreachable"
    insert_one := fun _ _ => .error "server unreachable"
    insert_many := fun _ _ => .error "server unreachable"
    aggregate := fun _ _ => .error "server unreachable"
    into_vec := fun _ => .error "server unreachable" }

/-- The demo driver with a document whose serialization back to JSON
fails: queries succeed and return one document, but `to_value` errors, so
the handlers hit the `.unwrap()` on the failed serialization. -/
def panicDriver : Driver :=
  { demoDriver with
    find_one := fun _ _ => .ok (some (Json.obj []))
    into_vec := fun _ => .ok [Json.null]
    to_value := fun _ => .error "serialization failed" }

/-- A demo database handle. -/
def demoDB : Database :=
  (Client.mk "mongodb://localhost:27017").database "testdb"

/-- Claim C1: for each of `find`, `findOne`, `insertOne`, `insertMany` and
`aggregate`, when the JSON string in the `query`/`data`/`pipeline` field
fails to parse, the command returns the corresponding parse-error string
and its driver-call trace is empty: the parse happens before any driver
method is invoked. -/
theorem C1_parse_failure_no_driver_call (d : Driver) (db : Database) (e : String) :
    (∀ a : FindArgs, d.from_str a.query = .error e →
      find d db a = (.err ("Failed to parse query: " ++ e), [])) ∧
    (∀ a : FindArgs, d.from_str a.query = .error e →
      findOne d db a = (.err ("Failed to parse query: " ++ e), [])) ∧
    (∀ a : InsertOneArgs, d.from_str a.data = .error e →
      insertOne d db a = (.err ("Failed to parse document: " ++ e), [])) ∧
    (∀ a : InsertManyArgs, d.from_str_vec a.data = .error e →
      insertMany d db a = (.err ("Failed to parse documents: " ++ e), [])) ∧
    (∀ a : AggregateArgs, d.from_str_vec a.pipeline = .error e →
      aggregate d db a = (.err ("Failed to parse pipeline: " ++ e), [])) := by
  refine ⟨?_, ?_, ?_, ?_, ?_⟩ <;> intro a h <;>
    simp [find, findOne, insertOne, insertMany, aggregate, h]

/-- Witness for C1: the malformed filter string of the spec scenario is
rejected by the parser, and `find` returns the parse-error string having
made no driver call. -/
theorem C1_witness :
    demoDriver.from_str "\x7binvalid" =
      .error "key must be a string at line 1 column 2" ∧
    find demoDriver demoDB ⟨"users", "\x7binvalid"⟩ =
      (.err ("Failed to parse query: " ++ "key must be a string at line 1 column 2"),
        []) :=
  ⟨rfl,
    (C1_parse_failure_no_driver_call demoDriver demoDB
      "key must be a string at line 1 column 2").1 ⟨"users", "\x7binvalid"⟩ rfl⟩

/-- Claim C2: with the data string parsed, `insertOne` and `insertMany`
return `"success"` exactly when the driver insert call returns `Ok` — the
mongodb driver reports failed insertions through the `Err` branch (for
`insert_many`, a bulk-write error), so `Ok` means zero failed insertions —
and any driver-reported failure yields the insert-error string instead. -/
theorem C2_insert_success_iff_driver_ok (d : Driver) (db : Database) :
    (∀ (a : InsertOneArgs) (doc : Json), d.from_str a.data = .ok doc →
      (((insertOne d db a).1 = Outcome.ok (Json.str "success") ↔
          ∃ r, d.insert_one (db.collection a.collection) doc = .ok r) ∧
        ∀ e, d.insert_one (db.collection a.collection) doc = .error e →
          (insertOne d db a).1 = .err ("Failed to insert document: " ++ e))) ∧
    (∀ (a : InsertManyArgs) (docs : List Json), d.from_str_vec a.data = .ok docs →
      (((insertMany d db a).1 = Outcome.ok (Json.str "success") ↔
          ∃ r, d.insert_many (db.collection a.collection) docs = .ok r) ∧
        ∀ e, d.insert_many (db.collection a.collection) docs = .error e →
          (insertMany d db a).1 = .err ("Failed to insert documents: " ++ e))) := by
  constructor
  · intro a doc h
    cases hi : d.insert_one (db.collection a.collection) doc with
    | error e => simp [insertOne, h, hi]
    | ok r =>
      refine ⟨iff_of_true (by simp [insertOne, h, hi]) ⟨r, rfl⟩, ?_⟩
      intro e he
      simp [hi] at he
  · intro a docs h
    cases hi : d.insert_many (db.collection a.collection) docs with
    | error e => simp [insertMany, h, hi]
    | ok r =>
      refine ⟨iff_of_true (by simp [insertMany, h, hi]) ⟨r, rfl⟩, ?_⟩
      intro e he
      simp [hi] at he

/-- Witness for C2: against the demo driver a successful `insertOne`
returns `"success"`, and against the unreachable-server driver the same
call returns the insert-error string. -/
theorem C2_witness :
    demoDriver.from_str "\x7b\x7d" = .ok (Json.obj []) ∧
    (insertOne demoDriver demoDB ⟨"users", "\x7b\x7d"⟩).1 =
      Outcome.ok (Json.str "success") ∧
    (insertOne unreachableDriver demoDB ⟨"users", "\x7b\x7d"⟩).1 =
      .err ("Failed to insert document: " ++ "server unreachable") := by
  refine ⟨rfl, ?_, ?_⟩
  · exact ((C2_insert_success_iff_driver_ok demoDriver demoDB).1
      ⟨"users", "\x7b\x7d"⟩ (Json.obj []) rfl).1.mpr ⟨⟨Json.str "id0"⟩, rfl⟩
  · exact ((C2_insert_success_iff_driver_ok unreachableDriver demoDB).1
      ⟨"users", "\x7b\x7d"⟩ (Json.obj []) rfl).2 "server unreachable" rfl

/-- Claim C4: `connectDBServer` builds a client from the server URI,
selects the named database on it, and returns that handle; when the
client construction fails it returns the connect-error string. -/
theorem C4_connectDBServer_spec (d : Driver) (p : DBInfo) :
    (∀ c, d.with_uri_str p.server = .ok c →
      connectDBServer d p = (.ok (c.database p.database), [])) ∧
    (∀ e, d.with_uri_str p.server = .error e →
      connectDBServer d p = (.err ("Failed to connect: " ++ e), [])) := by
  constructor <;> intro x h <;> simp [connectDBServer, h]

/-- Witness for C4: a parsable URI yields the database handle, and the
unparsable URI yields the connect-error string. -/
theorem C4_witness :
    connectDBServer demoDriver ⟨"mongodb://localhost:27017", "testdb"⟩ =
      (.ok ((Client.mk "mongodb://localhost:27017").database "testdb"), []) ∧
    connectDBServer demoDriver ⟨"not a uri", "testdb"⟩ =
      (.err ("Failed to connect: " ++ "An invalid argument was provided"), []) :=
  ⟨(C4_connectDBServer_spec demoDriver ⟨"mongodb://localhost:27017", "testdb"⟩).1
      (Client.mk "mongodb://localhost:27017") rfl,
    (C4_connectDBServer_spec demoDriver ⟨"not a uri", "testdb"⟩).2
      "An invalid argument was provided" rfl⟩

/-- Claim C10: whatever insert result the driver returns on success —
including any generated document ids inside it — the success payload of
`insertOne` and `insertMany` is the constant JSON string `"success"`: the
conclusion does not mention the driver result `r`, for any documents. -/
theorem C10_insert_discards_driver_result (d : Driver) (db : Database) :
    (∀ (a : InsertOneArgs) (doc : Json) (r : InsertOneResult),
      d.from_str a.data = .ok doc →
      d.insert_one (db.collection a.collection) doc = .ok r →
      (insertOne d db a).1 = Outcome.ok (Json.str "success")) ∧
    (∀ (a : InsertManyArgs) (docs : List Json) (r : InsertManyResult),
      d.from_str_vec a.data = .ok docs →
      d.insert_many (db.collection a.collection) docs = .ok r →
      (insertMany d db a).1 = Outcome.ok (Json.str "success")) := by
  constructor <;> intro a x r h hi <;> simp [insertOne, insertMany, h, hi]

/-- Witness for C10: the demo driver returns a generated id from
`insert_one`, and the command payload is still just `"success"`. -/
theorem C10_witness :
    (insertOne demoDriver demoDB ⟨"users", "\x7b\x7d"⟩).1 =
      Outcome.ok (Json.str "success") :=
  (C10_insert_discards_driver_result demoDriver demoDB).1
    ⟨"users", "\x7b\x7d"⟩ (Json.obj []) ⟨Json.str "id0"⟩ rfl rfl

/-- Serializing a `Vec<Document>` preserves the number of documents. -/
theorem to_value_vec_length (f : Json → Except String Json) :
    ∀ docs vs, to_value_vec f docs = .ok vs → vs.length = docs.length := by
  intro docs
  induction docs with
  | nil =>
    intro vs h
    simp [to_value_vec] at h
    simp [← h]
  | cons d ds ih =>
    intro vs h
    cases hf : f d with
    | error e => simp [to_value_vec, hf] at h
    | ok v =>
      cases hr : to_value_vec f ds with
      | error e => simp [to_value_vec, hf, hr] at h
      | ok ws =>
        simp [to_value_vec, hf, hr] at h
        simp [← h, ih ws hr]

/-- Claim C5: once the filter parses and the driver query yields a cursor,
`find` returns the JSON array of the serialized documents the cursor
yields — one entry per document — and the empty result set gives `[]`
(never an error). -/
theorem C5_find_returns_array (d : Driver) (db : Database) (a : FindArgs)
    (q : Json) (cur : Cursor)
    (hq : d.from_str a.query = .ok q)
    (hf : d.find (db.collection a.collection) q = .ok cur) :
    (∀ docs vs, d.into_vec cur = .ok docs →
      to_value_vec d.to_value docs = .ok vs →
      (find d db a).1 = Outcome.ok (Json.arr vs) ∧ vs.length = docs.length) ∧
    (d.into_vec cur = .ok [] → (find d db a).1 = Outcome.ok (Json.arr [])) := by
  constructor
  · intro docs vs hd hv
    exact ⟨by simp [find, hq, hf, hd, hv], to_value_vec_length d.to_value docs vs hv⟩
  · intro hd
    simp [find, hq, hf, hd, to_value_vec]

/-- Witness for C5, the spec scenario: `find` with filter `\x7b\x7d` on an
empty `users` collection returns the empty JSON array. -/
theorem C5_witness :
    (find demoDriver demoDB ⟨"users", "\x7b\x7d"⟩).1 = Outcome.ok (Json.arr []) :=
  (C5_find_returns_array demoDriver demoDB ⟨"users", "\x7b\x7d"⟩
    (Json.obj []) ⟨0⟩ rfl rfl).2 rfl

/-- Claim C6: once the filter parses, `findOne` returns JSON `null` when
the driver finds no document, the serialized first match when it finds
one, and the execute-error string when the driver query fails. -/
theorem C6_findOne_spec (d : Driver) (db : Database) (a : FindArgs)
    (q : Json) (hq : d.from_str a.query = .ok q) :
    (d.find_one (db.collection a.collection) q = .ok none →
      (findOne d db a).1 = Outcome.ok Json.null) ∧
    (∀ doc v, d.find_one (db.collection a.collection) q = .ok (some doc) →
      d.to_value doc = .ok v →
      (findOne d db a).1 = Outcome.ok v) ∧
    (∀ e, d.find_one (db.collection a.collection) q = .error e →
      (findOne d db a).1 = .err ("Failed to execute query: " ++ e)) := by
  refine ⟨?_, ?_, ?_⟩
  · intro hr
    simp [findOne, hq, hr, to_value_opt]
  · intro doc v hr hv
    simp [findOne, hq, hr, to_value_opt, hv]
  · intro e hr
    simp [findOne, hq, hr]

/-- Witness for C6: on the demo driver no document matches, and `findOne`
returns JSON `null`. -/
theorem C6_witness :
    (findOne demoDriver demoDB ⟨"users", "\x7b\x7d"⟩).1 = Outcome.ok Json.null :=
  (C6_findOne_spec demoDriver demoDB ⟨"users", "\x7b\x7d"⟩ (Json.obj []) rfl).1 rfl

/-- Chaining `accessDB` `n + 1` times, feeding each returned handle into
the next call (the chain stops early on a non-`ok` outcome, which never
happens). -/
def accessDBChain : Nat → Database → Outcome Database × List DriverCall
  | 0, db => accessDB db
  | n + 1, db =>
    match accessDB db with
    | (.ok db2, _) => accessDBChain n db2
    | other => other

/-- Claim C8: `accessDB` returns its handle unchanged with no driver
call, and chaining it any number of times equals a single pass. -/
theorem C8_accessDB_identity_idempotent (db : Database) :
    accessDB db = (.ok db, []) ∧
    ∀ n, accessDBChain n db = accessDB db := by
  refine ⟨rfl, ?_⟩
  intro n
  induction n with
  | zero => rfl
  | succ m ih => simpa [accessDBChain, accessDB] using ih

/-- Claim C9: `connectDBServer` makes no driver call that could reach the
network; it returns the database handle whenever the URI parses; its
error branch arises only from URI-parse failure; and its entire result
depends only on the URI parser — two drivers that agree on
`with_uri_str` but differ arbitrarily in every server-facing operation
(e.g. one pointed at an unreachable server) give the same result. -/
theorem C9_connect_no_network (d d2 : Driver) (p : DBInfo) :
    (connectDBServer d p).2 = [] ∧
    (∀ c, d.with_uri_str p.server = .ok c →
      (connectDBServer d p).1 = .ok (c.database p.database)) ∧
    (∀ e, (connectDBServer d p).1 = .err e →
      ∃ e0, d.with_uri_str p.server = .error e0 ∧ e = "Failed to connect: " ++ e0) ∧
    (d.with_uri_str = d2.with_uri_str → connectDBServer d p = connectDBServer d2 p) := by
  refine ⟨?_, ?_, ?_, ?_⟩
  · cases h : d.with_uri_str p.server <;> simp [connectDBServer, h]
  · intro c h
    simp [connectDBServer, h]
  · intro e he
    cases h : d.with_uri_str p.server with
    | error e0 =>
      refine ⟨e0, rfl, ?_⟩
      exact (by simpa [connectDBServer, h] using he : _ = e).symm
    | ok c => simp [connectDBServer, h] at he
  · intro h
    simp [connectDBServer, h]

/-- Witness for C9: against the unreachable-server driver (every network
operation fails), connecting with a parsable URI still returns the
database handle, and equals the result against the healthy demo driver. -/
theorem C9_witness :
    (connectDBServer unreachableDriver
        ⟨"mongodb://localhost:27017", "testdb"⟩).1 =
      .ok ((Client.mk "mongodb://localhost:27017").database "testdb") ∧
    connectDBServer demoDriver ⟨"mongodb://localhost:27017", "testdb"⟩ =
      connectDBServer unreachableDriver ⟨"mongodb://localhost:27017", "testdb"⟩ :=
  ⟨(C9_connect_no_network unreachableDriver demoDriver
      ⟨"mongodb://localhost:27017", "testdb"⟩).2.1
      (Client.mk "mongodb://localhost:27017") rfl,
    (C9_connect_no_network demoDriver unreachableDriver
      ⟨"mongodb://localhost:27017", "testdb"⟩).2.2.2 rfl⟩

/-- Two appended strings whose left parts already differ within their
first `k` characters are distinct, whatever the right parts are. -/
theorem append_ne_of_take_ne (p q a b : String) (k : Nat)
    (hp : k ≤ p.data.length) (hq : k ≤ q.data.length)
    (hne : p.data.take k ≠ q.data.take k) :
    p ++ a ≠ q ++ b := by
  intro h
  apply hne
  have h2 : (p ++ a).data = (q ++ b).data := by rw [h]
  rw [String.data_append, String.data_append] at h2
  have h3 := congrArg (List.take k) h2
  rwa [List.take_append_of_le_length hp, List.take_append_of_le_length hq] at h3

/-- Counterexample to claim C3 as stated: on a driver whose document
serialization fails, `find` on a well-formed filter ends in a panic (the
`.unwrap()` on `serde_json::to_value`) instead of returning an error
string, so not every error is converted into a returned string. -/
theorem C3_counterexample :
    (find panicDriver demoDB ⟨"users", "\x7b\x7d"⟩).1 =
      Outcome.panicked "serialization failed" := rfl

/-- Claim C3 (amended): connection, parse and driver-execution errors are
all caught where they occur and returned as strings — `connectDBServer`,
`accessDB`, `insertOne` and `insertMany` can never panic — but a
result-serialization failure in `find`, `findOne` or `aggregate` is not
caught: those are the only panic paths, each reached exactly when every
step before the final `serde_json::to_value(...).unwrap()` succeeded and
the serialization itself failed. -/
theorem C3_errors_caught_except_serialization (d : Driver) (db : Database) :
    (∀ (p : DBInfo) (m : String), (connectDBServer d p).1 ≠ Outcome.panicked m) ∧
    (∀ (h : Database) (m : String), (accessDB h).1 ≠ Outcome.panicked m) ∧
    (∀ (a : InsertOneArgs) (m : String), (insertOne d db a).1 ≠ Outcome.panicked m) ∧
    (∀ (a : InsertManyArgs) (m : String), (insertMany d db a).1 ≠ Outcome.panicked m) ∧
    (∀ (a : FindArgs) (m : String), (find d db a).1 = Outcome.panicked m →
      ∃ q cur res, d.from_str a.query = .ok q ∧
        d.find (db.collection a.collection) q = .ok cur ∧
        d.into_vec cur = .ok res ∧
        to_value_vec d.to_value res = .error m) ∧
    (∀ (a : FindArgs) (m : String), (findOne d db a).1 = Outcome.panicked m →
      ∃ q r, d.from_str a.query = .ok q ∧
        d.find_one (db.collection a.collection) q = .ok r ∧
        to_value_opt d.to_value r = .error m) ∧
    (∀ (a : AggregateArgs) (m : String), (aggregate d db a).1 = Outcome.panicked m →
      ∃ pl cur res, d.from_str_vec a.pipeline = .ok pl ∧
        d.aggregate (db.collection a.collection) pl = .ok cur ∧
        d.into_vec cur = .ok res ∧
        to_value_vec d.to_value res = .error m) := by
  refine ⟨?_, ?_, ?_, ?_, ?_, ?_, ?_⟩
  · intro p m
    cases h : d.with_uri_str p.server <;> simp [connectDBServer, h]
  · intro h m
    simp [accessDB]
  · intro a m
    cases h : d.from_str a.data with
    | error e => simp [insertOne, h]
    | ok doc =>
      cases hi : d.insert_one (db.collection a.collection) doc <;>
        simp [insertOne, h, hi]
  · intro a m
    cases h : d.from_str_vec a.data with
    | error e => simp [insertMany, h]
    | ok docs =>
      cases hi : d.insert_many (db.collection a.collection) docs <;>
        simp [insertMany, h, hi]
  · intro a m hp
    cases hq : d.from_str a.query with
    | error e => simp [find, hq] at hp
    | ok q =>
      cases hf : d.find (db.collection a.collection) q with
      | error e => simp [find, hq, hf] at hp
      | ok cur =>
        cases hv : d.into_vec cur with
        | error e => simp [find, hq, hf, hv] at hp
        | ok res =>
          cases ht : to_value_vec d.to_value res with
          | error m0 =>
            have hm : m0 = m := by simpa [find, hq, hf, hv, ht] using hp
            exact ⟨q, cur, res, rfl, hf, hv, hm ▸ ht⟩
          | ok vs => simp [find, hq, hf, hv, ht] at hp
  · intro a m hp
    cases hq : d.from_str a.query with
    | error e => simp [findOne, hq] at hp
    | ok q =>
      cases hf : d.find_one (db.collection a.collection) q with
      | error e => simp [findOne, hq, hf] at hp
      | ok r =>
        cases ht : to_value_opt d.to_value r with
        | error m0 =>
          have hm : m0 = m := by simpa [findOne, hq, hf, ht] using hp
          exact ⟨q, r, rfl, hf, hm ▸ ht⟩
        | ok v => simp [findOne, hq, hf, ht] at hp
  · intro a m hp
    cases hq : d.from_str_vec a.pipeline with
    | error e => simp [aggregate, hq] at hp
    | ok pl =>
      cases hf : d.aggregate (db.collection a.collection) pl with
      | error e => simp [aggregate, hq, hf] at hp
      | ok cur =>
        cases hv : d.into_vec cur with
        | error e => simp [aggregate, hq, hf, hv] at hp
        | ok res =>
          cases ht : to_value_vec d.to_value res with
          | error m0 =>
            have hm : m0 = m := by simpa [aggregate, hq, hf, hv, ht] using hp
            exact ⟨pl, cur, res, rfl, hf, hv, hm ▸ ht⟩
          | ok vs => simp [aggregate, hq, hf, hv, ht] at hp
  
/-- Witness for the amended C3: a failed insert against the unreachable
server cannot be a panic, and the concrete panic of `find` on the
bad-serialization driver is traced back to its serialization step. -/
theorem C3_witness :
    (insertOne unreachableDriver demoDB ⟨"users", "\x7b\x7d"⟩).1 ≠
      Outcome.panicked "x" ∧
    ∃ q cur res, panicDriver.from_str "\x7b\x7d" = .ok q ∧
      panicDriver.find (demoDB.collection "users") q = .ok cur ∧
      panicDriver.into_vec cur = .ok res ∧
      to_value_vec panicDriver.to_value res = .error "serialization failed" :=
  ⟨(C3_errors_caught_except_serialization unreachableDriver demoDB).2.2.1
      ⟨"users", "\x7b\x7d"⟩ "x",
    (C3_errors_caught_except_serialization panicDriver demoDB).2.2.2.2.1
      ⟨"users", "\x7b\x7d"⟩ "serialization failed" rfl⟩

/-- Counterexample to claim C7 as stated: `findOne` has no
result-materialization error string at all — when the driver returns a
document whose serialization back to JSON fails, the handler panics on
the `.unwrap()` instead of returning a distinct error string for that
failure class. -/
theorem C7_counterexample :
    (findOne panicDriver demoDB ⟨"users", "\x7b\x7d"⟩).1 =
      Outcome.panicked "serialization failed" := rfl

/-- Claim C7 (amended): for `find` and `aggregate` the three failure
classes — parse, execution, result read-out — each yield an error string
with its own fixed leading text, and these strings are pairwise distinct
whatever the underlying messages, so the caller can tell the classes
apart; `findOne` distinguishes parse from execution failures the same
way, but its result-materialization failure produces no error string: it
panics. -/
theorem C7_error_classes_distinguishable (d : Driver) (db : Database) :
    (∀ e1 e2 : String,
      "Failed to parse query: " ++ e1 ≠ "Failed to execute query: " ++ e2 ∧
      "Failed to parse query: " ++ e1 ≠ "Failed to read results: " ++ e2 ∧
      "Failed to execute query: " ++ e1 ≠ "Failed to read results: " ++ e2 ∧
      "Failed to parse pipeline: " ++ e1 ≠ "Failed to execute aggregation: " ++ e2 ∧
      "Failed to parse pipeline: " ++ e1 ≠ "Failed to read aggregation results: " ++ e2 ∧
      "Failed to execute aggregation: " ++ e1 ≠ "Failed to read aggregation results: " ++ e2) ∧
    (∀ (a : FindArgs) (q : Json) (cur : Cursor) (e : String),
      (d.from_str a.query = .error e →
        (find d db a).1 = .err ("Failed to parse query: " ++ e)) ∧
      (d.from_str a.query = .ok q →
        d.find (db.collection a.collection) q = .error e →
        (find d db a).1 = .err ("Failed to execute query: " ++ e)) ∧
      (d.from_str a.query = .ok q →
        d.find (db.collection a.collection) q = .ok cur →
        d.into_vec cur = .error e →
        (find d db a).1 = .err ("Failed to read results: " ++ e))) ∧
    (∀ (a : AggregateArgs) (pl : List Json) (cur : Cursor) (e : String),
      (d.from_str_vec a.pipeline = .error e →
        (aggregate d db a).1 = .err ("Failed to parse pipeline: " ++ e)) ∧
      (d.from_str_vec a.pipeline = .ok pl →
        d.aggregate (db.collection a.collection) pl = .error e →
        (aggregate d db a).1 = .err ("Failed to execute aggregation: " ++ e)) ∧
      (d.from_str_vec a.pipeline = .ok pl →
        d.aggregate (db.collection a.collection) pl = .ok cur →
        d.into_vec cur = .error e →
        (aggregate d db a).1 = .err ("Failed to read aggregation results: " ++ e))) ∧
    (∀ (a : FindArgs) (q : Json) (r : Option Json) (m : String),
      d.from_str a.query = .ok q →
      d.find_one (db.collection a.collection) q = .ok r →
      to_value_opt d.to_value r = .error m →
      (findOne d db a).1 = Outcome.panicked m) := by
  refine ⟨?_, ?_, ?_, ?_⟩
  · intro e1 e2
    refine ⟨?_, ?_, ?_, ?_, ?_, ?_⟩ <;>
      exact append_ne_of_take_ne _ _ _ _ 11 (by decide) (by decide) (by decide)
  · intro a q cur e
    refine ⟨fun h1 => ?_, fun h1 h2 => ?_, fun h1 h2 h3 => ?_⟩
    · simp [find, h1]
    · simp [find, h1, h2]
    · simp [find, h1, h2, h3]
  · intro a pl cur e
    refine ⟨fun h1 => ?_, fun h1 h2 => ?_, fun h1 h2 h3 => ?_⟩
    · simp [aggregate, h1]
    · simp [aggregate, h1, h2]
    · simp [aggregate, h1, h2, h3]
  · intro a q r m h1 h2 h3
    simp [findOne, h1, h2, h3]

/-- Witness for the amended C7: a concrete parse-failure string differs
from a concrete execution-failure string, and against the unreachable
server `find` returns exactly the execution-class error string. -/
theorem C7_witness :
    ("Failed to parse query: " ++ "boom" ≠ "Failed to execute query: " ++ "boom") ∧
    (find unreachableDriver demoDB ⟨"users", "\x7b\x7d"⟩).1 =
      .err ("Failed to execute query: " ++ "server unreachable") :=
  ⟨((C7_error_classes_distinguishable demoDriver demoDB).1 "boom" "boom").1,
    ((C7_error_classes_distinguishable unreachableDriver demoDB).2.1
      ⟨"users", "\x7b\x7d"⟩ (Json.obj []) ⟨0⟩ "server unreachable").2.1 rfl rfl⟩

end Mongo
